import Mathlib

/-!
Shallow embedding of the PathTree frontend (React/Next.js client of a
document-to-study-aid pipeline) for checking the natural-language
specification against the code.

Sources embedded:
  * frontend/src/lib/api.ts                 — typed API client (request building)
  * file-upload component (handleFileSelect, handleUpload)
  * dashboard component (handleUploadComplete and its state)
  * knowledge-tree component (onConnect over reactflow addEdge)
  * flashcards component (study-session state machine)
  * tutor-chat component (handleSendMessage)

The backend generation stages are not part of the source tree; where a
claim is decided by backend behaviour, the stage is modelled from the
spec and marked as such in its doc comment.

Conventions: JS numbers used as counters/sizes are Nat; JS string-union
tags are String (as in the TypeScript types); a JSON object body is an
ordered association list of key/value string pairs, matching what
JSON.stringify produces for the flat objects the client sends
(JSON.stringify omits keys whose value is undefined).
-/

namespace PathTree

/-! ## API client (frontend/src/lib/api.ts) -/

inductive HttpMethod where
  | get
  | post
  deriving DecidableEq, Repr

/-- A request as assembled by `apiCall`: endpoint path, method and the
JSON body as the ordered field list that `JSON.stringify` serialises. -/
structure ApiRequest where
  path : String
  method : HttpMethod
  body : List (String × String)
  deriving DecidableEq, Repr

/-- `generateKnowledgeGraph(documentId, content)` from api.ts: POST to
/generate/graph with body `{document_id, content}`. -/
def generateKnowledgeGraphRequest (documentId content : String) : ApiRequest :=
  { path := "/generate/graph"
    method := .post
    body := [("document_id", documentId), ("content", content)] }

/-- `generateSummary(documentId, content)` from api.ts. -/
def generateSummaryRequest (documentId content : String) : ApiRequest :=
  { path := "/generate/summary"
    method := .post
    body := [("document_id", documentId), ("content", content)] }

/-- `generateFlashcards(documentId, content)` from api.ts. -/
def generateFlashcardsRequest (documentId content : String) : ApiRequest :=
  { path := "/generate/flashcards"
    method := .post
    body := [("document_id", documentId), ("content", content)] }

/-- `askTutor(question, context?)` from api.ts: POST to /tutor with body
`{question, context}`; `JSON.stringify` drops `context` when the caller
passed none (undefined). -/
def askTutorRequest (question : String) (context : Option String) : ApiRequest :=
  { path := "/tutor"
    method := .post
    body := ("question", question) ::
      (match context with
       | some c => [("context", c)]
       | none => []) }

/-! ## File upload component (handleFileSelect) -/

/-- The fields of a browser `File` object that the upload component
reads: name, declared MIME type, and size in bytes. -/
structure SelectedFile where
  name : String
  declaredType : String
  size : Nat
  deriving DecidableEq, Repr

structure UploadState where
  file : Option SelectedFile
  uploading : Bool
  progress : Nat
  error : Option String
  success : Bool
  deriving DecidableEq, Repr

def initialUploadState : UploadState :=
  { file := none, uploading := false, progress := 0, error := none, success := false }

/-- `allowedTypes` in handleFileSelect. -/
def allowedTypes : List String :=
  [ "application/pdf"
  , "application/vnd.openxmlformats-officedocument.presentationml.presentation"
  , "text/plain" ]

def unsupportedTypeMessage : String := "Please select a PDF, PPTX, or TXT file"

def fileTooLargeMessage : String := "File size must be less than 50MB"

/-- The 50MB limit in handleFileSelect (`50 * 1024 * 1024`). -/
def maxFileSize : Nat := 50 * 1024 * 1024

/-- `handleFileSelect(file)`: rejects a MIME type outside `allowedTypes`
(first), then a size above `maxFileSize`, clearing the retained file in
both cases; otherwise retains the file and clears the error. -/
def handleFileSelect (prev : UploadState) (file : SelectedFile) : UploadState :=
  if ¬ allowedTypes.contains file.declaredType then
    { prev with error := some unsupportedTypeMessage, file := none }
  else if file.size > maxFileSize then
    { prev with error := some fileTooLargeMessage, file := none }
  else
    { prev with file := some file, error := none, success := false }

/-! ## Artifact types (frontend/src/lib/api.ts interfaces) -/

/-- `DocumentUploadResponse` (the fields the embedded components read;
`structure_map` is an untyped `any` in the source and never inspected by
the embedded handlers, so it is carried as an opaque string). -/
structure Document where
  document_id : String
  filename : String
  topics : List String
  concept_list : List (String × String)
  raw_text : String
  word_count : Nat
  page_count : Nat
  deriving DecidableEq, Repr

/-- Node payload of `KnowledgeGraphResponse.nodes[].data`. -/
structure GNodeData where
  label : String
  description : String
  level : Nat
  deriving DecidableEq, Repr

/-- 2D layout position; coordinates take part in no claim and are kept
as integers (the JS values are numbers used only for layout). -/
structure GPosition where
  x : Int
  y : Int
  deriving DecidableEq, Repr

/-- `KnowledgeGraphResponse.nodes` element; `variant` embeds the `type`
field with union type root | branch | leaf (kept as the tag string). -/
structure GNode where
  id : String
  variant : String
  data : GNodeData
  position : GPosition
  deriving DecidableEq, Repr

/-- `KnowledgeGraphResponse.edges` element; `relType` embeds the edge
`type` field. -/
structure GEdge where
  id : String
  source : String
  target : String
  relType : String
  deriving DecidableEq, Repr

structure KnowledgeGraph where
  nodes : List GNode
  edges : List GEdge
  layout : String
  deriving DecidableEq, Repr

/-- `SummaryResponse`; a chapter is (chapter, title, summary). -/
structure SummarySet where
  one_page : String
  five_page : String
  bullet_points : List String
  chapters : List (String × String × String)
  deriving DecidableEq, Repr

/-- `FlashcardResponse.flashcards` element. -/
structure Flashcard where
  id : String
  question : String
  answer : String
  difficulty : String
  category : String
  tags : List String
  deriving DecidableEq, Repr

structure FlashcardDeck where
  flashcards : List Flashcard
  deriving DecidableEq, Repr

/-- `TutorResponse`. -/
structure TutorResponse where
  explanation : String
  examples : List String
  practice_questions : List (String × String)
  tips : List String
  summary : List String
  difficulty_level : String
  related_topics : List String
  response_type : String
  deriving DecidableEq, Repr

/-- A generation stage either yields its artifact or fails; the client
only observes that the awaited promise rejected, so the error carries no
payload of interest. -/
inductive StageError where
  | stageFailure
  deriving DecidableEq, Repr

/-! ## Dashboard component (handleUploadComplete) -/

inductive DashView where
  | upload
  | knowledgeTree
  | summaries
  | flashcards
  | tutor
  deriving DecidableEq, Repr

/-- `DashboardState` from dashboard.tsx. -/
structure DashboardState where
  currentView : DashView
  document : Option Document
  knowledgeGraph : Option KnowledgeGraph
  flashcards : Option FlashcardDeck
  summaries : Option SummarySet
  isGenerating : Bool
  generationProgress : Nat
  deriving DecidableEq, Repr

def initialDashboardState : DashboardState :=
  { currentView := .upload
    document := none
    knowledgeGraph := none
    flashcards := none
    summaries := none
    isGenerating := false
    generationProgress := 0 }

/-- `Promise.all` over the three stage promises: fulfils with the triple
when all three fulfil, otherwise rejects (with the error of a rejected
member; the members share the one error type, so which rejection wins
the race is immaterial). -/
def promiseAll3 {α β γ : Type}
    (a : Except StageError α) (b : Except StageError β) (c : Except StageError γ) :
    Except StageError (α × β × γ) :=
  match a, b, c with
  | .ok x, .ok y, .ok z => .ok (x, y, z)
  | .error e, _, _ => .error e
  | _, .error e, _ => .error e
  | _, _, .error e => .error e

/-- One run of `handleUploadComplete`, decomposed into its observable
phases: `issued` are the three requests handed to `Promise.all`;
`preState` is the dashboard state while the stages are pending (after
the opening `setState` and `ticks` firings of the progress interval,
which raises progress by 10 up to a cap of 90); `finalState` is the
state after the `await` resolves (success branch) or the `catch` runs. -/
structure UploadRun where
  issued : List ApiRequest
  preState : DashboardState
  finalState : DashboardState
  deriving Repr

/-- `handleUploadComplete(document)` from dashboard.tsx, as a function of
the initial state and of the outcome of each of the three generate
calls. -/
def handleUploadComplete (s0 : DashboardState) (doc : Document) (ticks : Nat)
    (rg : Except StageError KnowledgeGraph)
    (rf : Except StageError FlashcardDeck)
    (rs : Except StageError SummarySet) : UploadRun :=
  let s1 : DashboardState :=
    { s0 with document := some doc, isGenerating := true, generationProgress := 0 }
  let pending : DashboardState :=
    { s1 with generationProgress := min (10 * ticks) 90 }
  let issued : List ApiRequest :=
    [ generateKnowledgeGraphRequest doc.document_id doc.raw_text
    , generateFlashcardsRequest doc.document_id doc.raw_text
    , generateSummaryRequest doc.document_id doc.raw_text ]
  match promiseAll3 rg rf rs with
  | .ok (kg, fc, sm) =>
      { issued := issued
        preState := pending
        finalState :=
          { pending with
              knowledgeGraph := some kg
              flashcards := some fc
              summaries := some sm
              isGenerating := false
              generationProgress := 100
              currentView := .knowledgeTree } }
  | .error _ =>
      { issued := issued
        preState := pending
        finalState :=
          { pending with isGenerating := false, generationProgress := 0 } }

/-! ## Knowledge-tree component (onConnect over reactflow addEdge) -/

/-- A reactflow `Connection` drawn by the user (handle ids play no role
for the single-handle nodes this component registers). -/
structure Connection where
  source : String
  target : String
  deriving DecidableEq, Repr

/-- reactflow's `addEdge(params, eds)`: ignores an incomplete
connection, ignores a connection duplicating an existing edge, and
otherwise appends a brand-new edge whose id is derived from the
endpoints. -/
def addEdge (conn : Connection) (eds : List GEdge) : List GEdge :=
  if conn.source = "" ∨ conn.target = "" then eds
  else if eds.any (fun e => e.source == conn.source && e.target == conn.target) then eds
  else eds ++
    [ { id := "reactflow__edge-" ++ conn.source ++ "-" ++ conn.target
        source := conn.source
        target := conn.target
        relType := "default" } ]

/-- `onConnect` in the KnowledgeTree component:
`(params) => setEdges((eds) => addEdge(params, eds))`. -/
def onConnect (conn : Connection) (eds : List GEdge) : List GEdge :=
  addEdge conn eds

/-! ## Flashcards component (study-session state machine) -/

/-- `FlashcardState` from the flashcards component; `studiedCards` is a
JS `Set` of card ids, embedded as a duplicate-free id list. -/
structure FlashcardState where
  currentIndex : Nat
  isFlipped : Bool
  showAnswer : Bool
  correctAnswers : Nat
  incorrectAnswers : Nat
  studiedCards : List String
  difficulty : String
  category : String
  deriving DecidableEq, Repr

def initialFlashcardState : FlashcardState :=
  { currentIndex := 0
    isFlipped := false
    showAnswer := false
    correctAnswers := 0
    incorrectAnswers := 0
    studiedCards := []
    difficulty := "all"
    category := "all" }

/-- `filteredCards` render-scope value: the deck filtered by the current
difficulty and category selections. -/
def filteredCards (deck : List Flashcard) (s : FlashcardState) : List Flashcard :=
  deck.filter fun card =>
    (s.difficulty == "all" || card.difficulty == s.difficulty)
      && (s.category == "all" || card.category == s.category)

/-- `totalCards` render-scope value. -/
def totalCards (deck : List Flashcard) (s : FlashcardState) : Nat :=
  (filteredCards deck s).length

/-- `currentCard` render-scope value (`filteredCards[state.currentIndex]`,
undefined when out of range). -/
def currentCard (deck : List Flashcard) (s : FlashcardState) : Option Flashcard :=
  (filteredCards deck s).get? s.currentIndex

/-- `handleFlip`. -/
def handleFlip (s : FlashcardState) : FlashcardState :=
  { s with isFlipped := !s.isFlipped, showAnswer := !s.showAnswer }

/-- `handleNext`: advances only when `currentIndex < totalCards - 1`
(the guard is false when the filtered deck is empty, as in JS where the
comparison is against -1). -/
def handleNext (deck : List Flashcard) (s : FlashcardState) : FlashcardState :=
  if s.currentIndex < totalCards deck s - 1 then
    { s with currentIndex := s.currentIndex + 1, isFlipped := false, showAnswer := false }
  else s

/-- `handlePrevious`: steps back only when `currentIndex > 0`. -/
def handlePrevious (s : FlashcardState) : FlashcardState :=
  if s.currentIndex > 0 then
    { s with currentIndex := s.currentIndex - 1, isFlipped := false, showAnswer := false }
  else s

/-- The `setState` inside `handleCorrect` (counter bump and studied-set
insertion; the handler is only reachable from the rendered card, so the
current card exists on every run the UI can produce). -/
def markCorrect (deck : List Flashcard) (s : FlashcardState) : FlashcardState :=
  { s with
      correctAnswers := s.correctAnswers + 1
      studiedCards :=
        match currentCard deck s with
        | some c => s.studiedCards.insert c.id
        | none => s.studiedCards }

/-- The `setState` inside `handleIncorrect`. -/
def markIncorrect (deck : List Flashcard) (s : FlashcardState) : FlashcardState :=
  { s with
      incorrectAnswers := s.incorrectAnswers + 1
      studiedCards :=
        match currentCard deck s with
        | some c => s.studiedCards.insert c.id
        | none => s.studiedCards }

/-- The deferred `handleNext` that `handleCorrect`/`handleIncorrect`
schedule via `setTimeout(handleNext, 500)`: the timeout fires the
`handleNext` closure of the render that scheduled it, so its guard
reads that render's `state.currentIndex` and `totalCards` (here `cap`,
the state captured at scheduling time, possibly stale by firing time),
while the functional `setState` updater it runs applies the increment
to whatever state `s` is current when the timer fires. -/
def deferredNext (deck : List Flashcard) (cap s : FlashcardState) : FlashcardState :=
  if cap.currentIndex < totalCards deck cap - 1 then
    { s with currentIndex := s.currentIndex + 1, isFlipped := false, showAnswer := false }
  else s

/-- `handleShuffle` (the source comment says it would shuffle; the state
update only rewinds to the first card). -/
def handleShuffle (s : FlashcardState) : FlashcardState :=
  { s with currentIndex := 0, isFlipped := false, showAnswer := false }

/-- `handleReset`. -/
def handleReset (s : FlashcardState) : FlashcardState :=
  { s with
      currentIndex := 0
      isFlipped := false
      showAnswer := false
      correctAnswers := 0
      incorrectAnswers := 0
      studiedCards := [] }

/-- The difficulty `select` onChange: sets the filter and rewinds the
index to 0. -/
def setDifficulty (d : String) (s : FlashcardState) : FlashcardState :=
  { s with difficulty := d, currentIndex := 0 }

/-- The category `select` onChange. -/
def setCategory (c : String) (s : FlashcardState) : FlashcardState :=
  { s with category := c, currentIndex := 0 }

/-- The Clear Filters button shown when no card matches: resets both
filters without touching the index. -/
def clearFilters (s : FlashcardState) : FlashcardState :=
  { s with difficulty := "all", category := "all" }

/-- The user events the study view can deliver. -/
inductive StudyEvent where
  | next
  | previous
  | markCorrectEvent
  | markIncorrectEvent
  | flip
  | shuffle
  | reset
  | chooseDifficulty (d : String)
  | chooseCategory (c : String)
  | clearAllFilters
  deriving DecidableEq, Repr

/-- A session's full state: the component state plus the queue of
pending `setTimeout(handleNext, 500)` callbacks, each remembering the
render state its closure captured, oldest first (equal delays fire in
scheduling order). -/
structure SessionState where
  current : FlashcardState
  pending : List FlashcardState
  deriving DecidableEq, Repr

def initialSessionState : SessionState :=
  { current := initialFlashcardState, pending := [] }

/-- Dispatch of one user event to its handler. A click handler runs the
closure of the render the user interacted with, which shows `current`;
mark-correct/mark-incorrect run their `setState` and schedule a
deferred `handleNext` capturing that same render state. -/
def userStep (deck : List Flashcard) (st : SessionState) : StudyEvent → SessionState
  | .next => { st with current := handleNext deck st.current }
  | .previous => { st with current := handlePrevious st.current }
  | .markCorrectEvent =>
      { current := markCorrect deck st.current, pending := st.pending ++ [st.current] }
  | .markIncorrectEvent =>
      { current := markIncorrect deck st.current, pending := st.pending ++ [st.current] }
  | .flip => { st with current := handleFlip st.current }
  | .shuffle => { st with current := handleShuffle st.current }
  | .reset => { st with current := handleReset st.current }
  | .chooseDifficulty d => { st with current := setDifficulty d st.current }
  | .chooseCategory c => { st with current := setCategory c st.current }
  | .clearAllFilters => { st with current := clearFilters st.current }

/-- A step of the session: either a user event, or the oldest pending
timer firing its deferred `handleNext`. -/
inductive SchedEvent where
  | user (e : StudyEvent)
  | fireTimeout
  deriving DecidableEq, Repr

def schedStep (deck : List Flashcard) (st : SessionState) : SchedEvent → SessionState
  | .user e => userStep deck st e
  | .fireTimeout =>
      match st.pending with
      | [] => st
      | cap :: rest => { current := deferredNext deck cap st.current, pending := rest }

/-- A study session: the schedule folded from the initial state. -/
def sessionRun (deck : List Flashcard) (events : List SchedEvent) : SessionState :=
  events.foldl (schedStep deck) initialSessionState

/-- The serialized schedules: each mark event's deferred advance fires
before the next user event (no user interaction inside the 500 ms
window). -/
def serializeStudy : List StudyEvent → List SchedEvent
  | [] => []
  | .markCorrectEvent :: rest =>
      .user .markCorrectEvent :: .fireTimeout :: serializeStudy rest
  | .markIncorrectEvent :: rest =>
      .user .markIncorrectEvent :: .fireTimeout :: serializeStudy rest
  | e :: rest => .user e :: serializeStudy rest

/-! ## Tutor chat component (handleSendMessage) -/

inductive MessageRole where
  | user
  | tutor
  deriving DecidableEq, Repr

/-- One transcript entry; `id` and `timestamp` come from `Date.now()`,
embedded as the Nat clock value passed to the handler. -/
structure Message where
  id : String
  role : MessageRole
  content : String
  timestamp : Nat
  tutorData : Option TutorResponse
  deriving DecidableEq, Repr

/-- The component state `handleSendMessage` reads and writes. -/
structure TutorChatState where
  messages : List Message
  inputValue : String
  isLoading : Bool
  deriving DecidableEq, Repr

def tutorGreeting : String :=
  "Hello! I\x27m your AI tutor. I\x27m here to help you understand concepts from your document. Ask me anything!"

def tutorErrorReply : String :=
  "I\x27m sorry, I encountered an error while processing your question. Please try again."

/-- The initial chat state (one greeting message, id "1", shown at mount
time 0). -/
def initialTutorChatState : TutorChatState :=
  { messages :=
      [ { id := "1", role := .tutor, content := tutorGreeting, timestamp := 0, tutorData := none } ]
    inputValue := ""
    isLoading := false }

/-- The guard `!inputValue.trim()` of handleSendMessage: JS trim drops
leading and trailing whitespace, so the trimmed string is falsy (empty)
exactly when every character of the input is whitespace. -/
def isBlank (s : String) : Bool :=
  s.data.all Char.isWhitespace

/-- `handleSendMessage` from tutor-chat.tsx, as a function of the
component state, the `context` prop, the outcome of the awaited
`askTutor` call and the clock (`Date.now()`). Returns the state once
the handler (and its `finally`) has run, paired with the request it
issued, if any. The early return fires on blank (after trim) input or
while a previous request is still loading; otherwise the user message
is appended and the input cleared before the request resolves, and the
reply (or the fixed error reply) is appended after it. -/
def handleSendMessage (context : Option String) (s : TutorChatState)
    (outcome : Except StageError TutorResponse) (now : Nat) :
    TutorChatState × Option ApiRequest :=
  if isBlank s.inputValue ∨ s.isLoading then (s, none)
  else
    let userMessage : Message :=
      { id := toString now, role := .user, content := s.inputValue, timestamp := now,
        tutorData := none }
    let reply : Message :=
      match outcome with
      | .ok r =>
          { id := toString (now + 1), role := .tutor, content := r.explanation,
            timestamp := now, tutorData := some r }
      | .error _ =>
          { id := toString (now + 1), role := .tutor, content := tutorErrorReply,
            timestamp := now, tutorData := none }
    ( { messages := s.messages ++ [userMessage, reply]
        inputValue := ""
        isLoading := false }
    , some (askTutorRequest s.inputValue context) )

/-! ## Knowledge-Tree generation stage (spec-modelled)

The backend stage code is not in the source tree; only its client and
the artifact type are. Per the spec, the stage validates the structure
parsed from the upstream reply against the KnowledgeGraph schema and
its invariants, and fails rather than inventing edges. -/

/-- Ids of the nodes of a graph. -/
def nodeIds (g : KnowledgeGraph) : List String :=
  g.nodes.map (·.id)

/-- Every edge endpoint names an existing node. -/
def edgeEndpointsValid (g : KnowledgeGraph) : Bool :=
  g.edges.all fun e => (nodeIds g).contains e.source && (nodeIds g).contains e.target

/-- The root-variant nodes of a graph. -/
def rootNodes (g : KnowledgeGraph) : List GNode :=
  g.nodes.filter (fun n => n.variant == "root")

/-- Hierarchy level of the node with a given id (0 when absent; only
queried on ids that `edgeEndpointsValid` has confirmed). -/
def levelOf (g : KnowledgeGraph) (id : String) : Nat :=
  match g.nodes.find? (fun n => n.id == id) with
  | some n => n.data.level
  | none => 0

/-- Every edge goes from a node to one of equal or deeper level. -/
def levelsMonotone (g : KnowledgeGraph) : Bool :=
  g.edges.all fun e => levelOf g e.source ≤ levelOf g e.target

/-- One saturation step of forward reachability: append the target of
every edge whose source is already reached. -/
def reachStep (edges : List GEdge) (s : List String) : List String :=
  edges.foldl
    (fun acc e => if acc.contains e.source && !acc.contains e.target then acc ++ [e.target] else acc)
    s

/-- Iterated saturation (enough fuel to reach every node a path can reach). -/
def reachSet (edges : List GEdge) : Nat → List String → List String
  | 0, s => s
  | fuel + 1, s => reachSet edges fuel (reachStep edges s)

/-- The graph has exactly one root and every non-root node is reachable
from it following edges forward. -/
def connectedFromRoot (g : KnowledgeGraph) : Bool :=
  match rootNodes g with
  | [r] =>
      g.nodes.all fun n =>
        n.variant == "root" || (reachSet g.edges g.nodes.length [r.id]).contains n.id
  | _ => false

/-- The schema/invariant validation the stage applies to the parsed
upstream structure. -/
def graphValid (g : KnowledgeGraph) : Bool :=
  edgeEndpointsValid g && (rootNodes g).length == 1 && connectedFromRoot g && levelsMonotone g

/-- Modelled from the spec: the backend Knowledge-Tree stage (absent
from the source tree; only its HTTP client is present). Per §4.3 it
validates the structure parsed from the completion reply against the
KnowledgeGraph schema and its invariants — endpoint closure, a unique
root, connectivity from the root, monotonically non-decreasing levels —
and fails rather than inventing edges when the upstream output violates
them. -/
def knowledgeTreeStage (parsed : KnowledgeGraph) : Except StageError KnowledgeGraph :=
  if graphValid parsed then .ok parsed else .error .stageFailure

/-- The edge relation of a graph on node ids. -/
def edgeRel (g : KnowledgeGraph) (a b : String) : Prop :=
  ∃ e ∈ g.edges, e.source = a ∧ e.target = b

/-- Propositional form of endpoint closure. -/
def EdgesClosed (g : KnowledgeGraph) : Prop :=
  ∀ e ∈ g.edges, e.source ∈ nodeIds g ∧ e.target ∈ nodeIds g

/-- Exactly one root-variant node. -/
def UniqueRoot (g : KnowledgeGraph) : Prop :=
  (rootNodes g).length = 1

/-- Every non-root node is reachable from a root node via edges. -/
def AllReachable (g : KnowledgeGraph) : Prop :=
  ∀ n ∈ g.nodes, n.variant ≠ "root" →
    ∃ r ∈ rootNodes g, Relation.ReflTransGen (edgeRel g) r.id n.id

/-- Along every edge path the hierarchy levels never decrease. -/
def PathsMonotone (g : KnowledgeGraph) : Prop :=
  ∀ p : List String, p.Chain' (edgeRel g) → (p.map (levelOf g)).Chain' (· ≤ ·)

/-! ## Concrete fixtures used by closed theorems -/

def exDocument : Document :=
  { document_id := "doc-1"
    filename := "notes.txt"
    topics := ["biology"]
    concept_list := [("cell", "basic unit of life")]
    raw_text := "Cells divide by mitosis."
    word_count := 4
    page_count := 1 }

def exDeck : FlashcardDeck :=
  { flashcards :=
      [ { id := "c1", question := "What is a cell?", answer := "The basic unit of life."
          difficulty := "easy", category := "concept", tags := ["biology"] } ] }

def exSummaries : SummarySet :=
  { one_page := "Cells divide."
    five_page := "Cells divide by mitosis."
    bullet_points := ["mitosis"]
    chapters := [("1", "Cells", "Division")] }

def exGraph : KnowledgeGraph :=
  { nodes :=
      [ { id := "r", variant := "root", data := { label := "Biology", description := "", level := 0 }
          position := { x := 0, y := 0 } }
      , { id := "b", variant := "branch", data := { label := "Cells", description := "", level := 1 }
          position := { x := 0, y := 120 } }
      , { id := "l", variant := "leaf", data := { label := "Mitosis", description := "", level := 2 }
          position := { x := 60, y := 240 } } ]
    edges :=
      [ { id := "e1", source := "r", target := "b", relType := "contains" }
      , { id := "e2", source := "b", target := "l", relType := "contains" } ]
    layout := "hierarchical" }

/-- A parsed upstream structure with a dangling edge target: no node
"x" exists, so connectivity/closure validation must reject it. -/
def exBadGraph : KnowledgeGraph :=
  { nodes :=
      [ { id := "r", variant := "root", data := { label := "Root", description := "", level := 0 }
          position := { x := 0, y := 0 } } ]
    edges := [ { id := "e1", source := "r", target := "x", relType := "contains" } ]
    layout := "hierarchical" }

/-! ## C8: client functions match the interface table -/

/-- The request shape the spec's interface table prescribes for the
three generation endpoints: POST to the endpoint with a JSON body of
exactly the fields document_id and content. -/
def specTableStageRequest (endpoint documentId content : String) : ApiRequest :=
  { path := endpoint
    method := .post
    body := [("document_id", documentId), ("content", content)] }

/-- C8: generateKnowledgeGraph, generateSummary and generateFlashcards
POST to /generate/graph, /generate/summary and /generate/flashcards
respectively, each with a JSON body of exactly the fields document_id
and content (the supplied document id and text) and nothing else. -/
theorem generate_requests_match_interface_table (documentId content : String) :
    generateKnowledgeGraphRequest documentId content =
      specTableStageRequest "/generate/graph" documentId content
  ∧ generateSummaryRequest documentId content =
      specTableStageRequest "/generate/summary" documentId content
  ∧ generateFlashcardsRequest documentId content =
      specTableStageRequest "/generate/flashcards" documentId content :=
  ⟨rfl, rfl, rfl⟩

/-! ## C3: upload selection checks -/

/-- C3 counterexample: an input over the 50 MiB ceiling whose MIME type
is also unsupported is rejected with the unsupported-type message, not
the size message — the type check runs first, so the claim that
selection fails with a PayloadTooLarge-style error whenever the size
exceeds the ceiling is false at this input. -/
theorem oversize_unsupported_file_gets_type_error :
    (⟨"big.png", "image/png", 60 * 1024 * 1024⟩ : SelectedFile).size > maxFileSize
  ∧ (handleFileSelect initialUploadState ⟨"big.png", "image/png", 60 * 1024 * 1024⟩).error
      = some unsupportedTypeMessage
  ∧ (handleFileSelect initialUploadState ⟨"big.png", "image/png", 60 * 1024 * 1024⟩).error
      ≠ some fileTooLargeMessage := by
  refine ⟨by decide, ?_, ?_⟩ <;> decide

/-- C3 (amended): a declared MIME type outside the allowed set fails
with the unsupported-type error; a supported type over the 50 MiB
ceiling fails with the size error; both failures retain no file; a file
passing both checks is retained with the error cleared. -/
theorem handleFileSelect_spec (prev : UploadState) (f : SelectedFile) :
    (¬ allowedTypes.contains f.declaredType →
        handleFileSelect prev f = { prev with error := some unsupportedTypeMessage, file := none })
  ∧ (allowedTypes.contains f.declaredType → f.size > maxFileSize →
        handleFileSelect prev f = { prev with error := some fileTooLargeMessage, file := none })
  ∧ (allowedTypes.contains f.declaredType → ¬ f.size > maxFileSize →
        handleFileSelect prev f = { prev with file := some f, error := none, success := false }) := by
  refine ⟨fun h1 => ?_, fun h1 h2 => ?_, fun h1 h2 => ?_⟩
  · simp only [handleFileSelect]
    rw [if_pos h1]
  · simp only [handleFileSelect]
    rw [if_neg (not_not_intro h1), if_pos h2]
  · simp only [handleFileSelect]
    rw [if_neg (not_not_intro h1), if_neg h2]

/-- Witness for C3: the three branches of `handleFileSelect_spec` at
concrete files. -/
theorem handleFileSelect_spec_witness :
    handleFileSelect initialUploadState ⟨"cat.png", "image/png", 100⟩
      = { initialUploadState with error := some unsupportedTypeMessage, file := none }
  ∧ handleFileSelect initialUploadState ⟨"big.txt", "text/plain", 60 * 1024 * 1024⟩
      = { initialUploadState with error := some fileTooLargeMessage, file := none }
  ∧ handleFileSelect initialUploadState ⟨"ok.txt", "text/plain", 1024⟩
      = { initialUploadState with
            file := some ⟨"ok.txt", "text/plain", 1024⟩, error := none, success := false } :=
  ⟨(handleFileSelect_spec _ _).1 (by decide),
   (handleFileSelect_spec _ _).2.1 (by decide) (by decide),
   (handleFileSelect_spec _ _).2.2 (by decide) (by decide)⟩

/-! ## C7: study-session reset -/

/-- C7: reset rewinds the index to 0, zeroes both tally counters and
empties the studied-card set, while the deck and the two filter
selections (hence the filtered deck) are unchanged. -/
theorem handleReset_spec (deck : List Flashcard) (s : FlashcardState) :
    (handleReset s).currentIndex = 0
  ∧ (handleReset s).correctAnswers = 0
  ∧ (handleReset s).incorrectAnswers = 0
  ∧ (handleReset s).studiedCards = []
  ∧ (handleReset s).difficulty = s.difficulty
  ∧ (handleReset s).category = s.category
  ∧ filteredCards deck (handleReset s) = filteredCards deck s := by
  refine ⟨rfl, rfl, rfl, rfl, rfl, rfl, rfl⟩

/-! ## C4: UI edge-set mutation by onConnect -/

/-- C4 (code behaviour at a failing input): drawing a connection from
"b" to "l2" over the rendered edge set appends a brand-new edge, so a
UI interaction changes the structure (edge ids and endpoints) of the
displayed graph rather than leaving it unchanged. -/
theorem onConnect_appends_new_edge :
    onConnect ⟨"b", "l2"⟩ exGraph.edges
      = exGraph.edges ++
        [ { id := "reactflow__edge-b-l2", source := "b", target := "l2", relType := "default" } ]
  ∧ (onConnect ⟨"b", "l2"⟩ exGraph.edges).length = exGraph.edges.length + 1 := by
  refine ⟨?_, ?_⟩ <;> decide

/-! ## C1: one stage failure discards the sibling artifacts -/

/-- C1 (code behaviour at a failing input): when the graph stage fails
while flashcards and summaries succeed, the single catch around
`Promise.all` stores none of the artifacts — both successful sibling
results are discarded. -/
theorem single_stage_failure_discards_siblings :
    (handleUploadComplete initialDashboardState exDocument 3
        (.error .stageFailure) (.ok exDeck) (.ok exSummaries)).finalState.flashcards = none
  ∧ (handleUploadComplete initialDashboardState exDocument 3
        (.error .stageFailure) (.ok exDeck) (.ok exSummaries)).finalState.summaries = none
  ∧ (handleUploadComplete initialDashboardState exDocument 3
        (.error .stageFailure) (.ok exDeck) (.ok exSummaries)).finalState.knowledgeGraph = none
  ∧ (handleUploadComplete initialDashboardState exDocument 3
        (.error .stageFailure) (.ok exDeck) (.ok exSummaries)).finalState.isGenerating = false := by
  refine ⟨rfl, rfl, rfl, rfl⟩

/-! ## C5: fan-out issues all three stages, completion only when all resolve -/

/-- C5: after a successful upload the handler issues all three generate
requests before blocking on any result; while they are pending no
artifact of this run is recorded (the artifact slots still hold what
they held before) and progress stays at most 90 with isGenerating true;
when all three succeed the single completing update records all three
artifacts, clears isGenerating, sets progress 100 and switches the
view; and the completed marking (isGenerating false with progress 100)
occurs only when all three results are available, with all three
recorded. -/
theorem handleUploadComplete_fanout_spec (s0 : DashboardState) (doc : Document) (ticks : Nat)
    (rg : Except StageError KnowledgeGraph)
    (rf : Except StageError FlashcardDeck)
    (rs : Except StageError SummarySet) :
    (handleUploadComplete s0 doc ticks rg rf rs).issued
        = [ generateKnowledgeGraphRequest doc.document_id doc.raw_text
          , generateFlashcardsRequest doc.document_id doc.raw_text
          , generateSummaryRequest doc.document_id doc.raw_text ]
  ∧ (handleUploadComplete s0 doc ticks rg rf rs).preState.knowledgeGraph = s0.knowledgeGraph
  ∧ (handleUploadComplete s0 doc ticks rg rf rs).preState.flashcards = s0.flashcards
  ∧ (handleUploadComplete s0 doc ticks rg rf rs).preState.summaries = s0.summaries
  ∧ (handleUploadComplete s0 doc ticks rg rf rs).preState.isGenerating = true
  ∧ (handleUploadComplete s0 doc ticks rg rf rs).preState.generationProgress ≤ 90
  ∧ (∀ kg fc sm, rg = .ok kg → rf = .ok fc → rs = .ok sm →
      (handleUploadComplete s0 doc ticks rg rf rs).finalState =
        { (handleUploadComplete s0 doc ticks rg rf rs).preState with
            knowledgeGraph := some kg
            flashcards := some fc
            summaries := some sm
            isGenerating := false
            generationProgress := 100
            currentView := .knowledgeTree })
  ∧ ((handleUploadComplete s0 doc ticks rg rf rs).finalState.isGenerating = false ∧
     (handleUploadComplete s0 doc ticks rg rf rs).finalState.generationProgress = 100 →
      ∃ kg fc sm, rg = .ok kg ∧ rf = .ok fc ∧ rs = .ok sm ∧
        (handleUploadComplete s0 doc ticks rg rf rs).finalState.knowledgeGraph = some kg ∧
        (handleUploadComplete s0 doc ticks rg rf rs).finalState.flashcards = some fc ∧
        (handleUploadComplete s0 doc ticks rg rf rs).finalState.summaries = some sm) := by
  cases rg <;> cases rf <;> cases rs <;>
    simp [handleUploadComplete, promiseAll3, Nat.min_le_right]

/-- Witness for C5: an all-success run at concrete artifacts. -/
theorem handleUploadComplete_fanout_spec_witness :
    (handleUploadComplete initialDashboardState exDocument 2
        (.ok exGraph) (.ok exDeck) (.ok exSummaries)).finalState =
      { (handleUploadComplete initialDashboardState exDocument 2
            (.ok exGraph) (.ok exDeck) (.ok exSummaries)).preState with
          knowledgeGraph := some exGraph
          flashcards := some exDeck
          summaries := some exSummaries
          isGenerating := false
          generationProgress := 100
          currentView := .knowledgeTree } :=
  (handleUploadComplete_fanout_spec initialDashboardState exDocument 2
      (.ok exGraph) (.ok exDeck) (.ok exSummaries)).2.2.2.2.2.2.1
    exGraph exDeck exSummaries rfl rfl rfl

/-! ## C6: tutor requests are independent of the transcript -/

/-- C6: two invocations of handleSendMessage with the same input text
and the same context prop produce the same request, whatever the
transcripts, pending outcomes or clocks of the two runs; and the
request issued for a non-blank input is exactly the askTutor payload
built from the current question and the optional context (no earlier
messages or replies enter it). -/
theorem handleSendMessage_stateless (context : Option String) (q : String)
    (s1 s2 : TutorChatState) (o1 o2 : Except StageError TutorResponse) (n1 n2 : Nat)
    (h1 : s1.inputValue = q) (h2 : s2.inputValue = q)
    (l1 : s1.isLoading = false) (l2 : s2.isLoading = false) :
    (handleSendMessage context s1 o1 n1).2 = (handleSendMessage context s2 o2 n2).2
  ∧ (handleSendMessage context s1 o1 n1).2 =
      (if isBlank q then none else some (askTutorRequest q context)) := by
  by_cases hq : isBlank q = true <;>
    simp [handleSendMessage, h1, h2, l1, l2, hq]

/-- Witness for C6: two chats whose transcripts differ (fresh chat vs a
chat with an extra exchange recorded) issue the identical request for
the same question and context. -/
theorem handleSendMessage_stateless_witness :
    (handleSendMessage (some "Cells divide by mitosis.")
        { initialTutorChatState with inputValue := "What is mitosis?" }
        (.error .stageFailure) 10).2
      = (handleSendMessage (some "Cells divide by mitosis.")
          { messages :=
              initialTutorChatState.messages ++
                [ { id := "2", role := .user, content := "Earlier question", timestamp := 4
                    tutorData := none }
                , { id := "3", role := .tutor, content := "Earlier answer", timestamp := 4
                    tutorData := none } ]
            inputValue := "What is mitosis?"
            isLoading := false }
          (.ok { explanation := "Cell division", examples := [], practice_questions := []
                 tips := [], summary := [], difficulty_level := "beginner"
                 related_topics := [], response_type := "explanation" }) 42).2 :=
  (handleSendMessage_stateless (some "Cells divide by mitosis.") "What is mitosis?"
      _ _ _ _ 10 42 rfl rfl rfl rfl).1

/-! ## C10: validation paths of handleSendMessage -/

/-- C10 counterexample: a send whose request fails still clears the
input field (the clearing happens before the await), so a successful
send is not the only path that clears it — here the outcome is an
error, the transcript gains the fixed error reply, and the input is
cleared all the same. -/
theorem failed_send_clears_input :
    (handleSendMessage none
        { initialTutorChatState with inputValue := "What is a cell?" }
        (.error .stageFailure) 7).1.inputValue = ""
  ∧ ((handleSendMessage none
        { initialTutorChatState with inputValue := "What is a cell?" }
        (.error .stageFailure) 7).1.messages.map Message.content)
      = [tutorGreeting, "What is a cell?", tutorErrorReply] := by
  refine ⟨rfl, rfl⟩

/-- C10 (amended): a blank-after-trim input or an in-flight request
makes handleSendMessage a strict no-op — transcript and input field
unchanged, no request issued; every send that passes this validation
issues the request and clears the input field, whether the request
succeeds or fails. -/
theorem handleSendMessage_validation (context : Option String) (s : TutorChatState)
    (o : Except StageError TutorResponse) (now : Nat) :
    (isBlank s.inputValue ∨ s.isLoading →
        handleSendMessage context s o now = (s, none))
  ∧ (¬ (isBlank s.inputValue ∨ s.isLoading) →
        (handleSendMessage context s o now).1.inputValue = ""
      ∧ (handleSendMessage context s o now).2 = some (askTutorRequest s.inputValue context)) := by
  constructor
  · intro h
    simp only [handleSendMessage]
    rw [if_pos h]
  · intro h
    simp only [handleSendMessage]
    rw [if_neg h]
    exact ⟨rfl, rfl⟩

/-- Witness for C10: the no-op branch at a whitespace-only input and at
a loading chat, and the clearing branch at a real question. -/
theorem handleSendMessage_validation_witness :
    handleSendMessage none { initialTutorChatState with inputValue := "   " }
        (.error .stageFailure) 3
      = ({ initialTutorChatState with inputValue := "   " }, none)
  ∧ handleSendMessage none
        { initialTutorChatState with inputValue := "Why?", isLoading := true }
        (.error .stageFailure) 3
      = ({ initialTutorChatState with inputValue := "Why?", isLoading := true }, none)
  ∧ (handleSendMessage none { initialTutorChatState with inputValue := "Why?" }
        (.error .stageFailure) 3).1.inputValue = ""
  ∧ (handleSendMessage none { initialTutorChatState with inputValue := "Why?" }
        (.error .stageFailure) 3).2
      = some (askTutorRequest "Why?" none) :=
  ⟨(handleSendMessage_validation none _ _ 3).1 (Or.inl (by decide)),
   (handleSendMessage_validation none _ _ 3).1 (Or.inr rfl),
   ((handleSendMessage_validation none _ _ 3).2 (by decide)).1,
   ((handleSendMessage_validation none _ _ 3).2 (by decide)).2⟩

/-! ## C9: the study index stays within the filtered deck -/

/-- The index invariant: strictly below the filtered-deck size, and 0
when that size is 0. -/
def indexInBounds (deck : List Flashcard) (s : FlashcardState) : Prop :=
  s.currentIndex < max (totalCards deck s) 1

theorem totalCards_le_deck_length (deck : List Flashcard) (s : FlashcardState) :
    totalCards deck s ≤ deck.length :=
  List.length_filter_le _ _

theorem filteredCards_clearFilters (deck : List Flashcard) (s : FlashcardState) :
    filteredCards deck (clearFilters s) = deck := by
  simp [filteredCards, clearFilters]

theorem handleNext_bounds (deck : List Flashcard) (s : FlashcardState)
    (h : indexInBounds deck s) : indexInBounds deck (handleNext deck s) := by
  unfold handleNext
  split
  · case isTrue hlt =>
      have hadd : s.currentIndex + 1 < totalCards deck s := Nat.add_lt_of_lt_sub hlt
      exact Nat.lt_of_lt_of_le hadd (le_max_left _ _)
  · exact h

theorem handlePrevious_bounds (deck : List Flashcard) (s : FlashcardState)
    (h : indexInBounds deck s) : indexInBounds deck (handlePrevious s) := by
  unfold handlePrevious
  split
  · exact Nat.lt_of_le_of_lt (Nat.sub_le _ _) h
  · exact h

theorem deferredNext_markCorrect_bounds (deck : List Flashcard) (s : FlashcardState)
    (h : indexInBounds deck s) :
    indexInBounds deck (deferredNext deck s (markCorrect deck s)) := by
  unfold deferredNext
  split
  · case isTrue hlt =>
      have hadd : s.currentIndex + 1 < totalCards deck s := Nat.add_lt_of_lt_sub hlt
      exact Nat.lt_of_lt_of_le hadd (le_max_left _ _)
  · exact h

theorem deferredNext_markIncorrect_bounds (deck : List Flashcard) (s : FlashcardState)
    (h : indexInBounds deck s) :
    indexInBounds deck (deferredNext deck s (markIncorrect deck s)) := by
  unfold deferredNext
  split
  · case isTrue hlt =>
      have hadd : s.currentIndex + 1 < totalCards deck s := Nat.add_lt_of_lt_sub hlt
      exact Nat.lt_of_lt_of_le hadd (le_max_left _ _)
  · exact h

theorem serializedFold_bounds (deck : List Flashcard) :
    ∀ (events : List StudyEvent) (s : FlashcardState), indexInBounds deck s →
      ((serializeStudy events).foldl (schedStep deck) ⟨s, []⟩).pending = []
      ∧ indexInBounds deck ((serializeStudy events).foldl (schedStep deck) ⟨s, []⟩).current := by
  intro events
  induction events with
  | nil => intro s h; exact ⟨rfl, h⟩
  | cons e rest ih =>
      intro s h
      have hzero : ∀ t : FlashcardState, t.currentIndex = 0 → indexInBounds deck t := by
        intro t ht
        unfold indexInBounds
        rw [ht]
        exact Nat.lt_of_lt_of_le Nat.zero_lt_one (le_max_right _ _)
      cases e with
      | next => exact ih _ (handleNext_bounds deck s h)
      | previous => exact ih _ (handlePrevious_bounds deck s h)
      | markCorrectEvent => exact ih _ (deferredNext_markCorrect_bounds deck s h)
      | markIncorrectEvent => exact ih _ (deferredNext_markIncorrect_bounds deck s h)
      | flip => exact ih _ h
      | shuffle => exact ih _ (hzero _ rfl)
      | reset => exact ih _ (hzero _ rfl)
      | chooseDifficulty d => exact ih _ (hzero _ rfl)
      | chooseCategory c => exact ih _ (hzero _ rfl)
      | clearAllFilters =>
          refine ih _ ?_
          unfold indexInBounds at h ⊢
          have hle : totalCards deck s ≤ totalCards deck (clearFilters s) := by
            unfold totalCards
            rw [filteredCards_clearFilters]
            exact totalCards_le_deck_length deck s
          exact Nat.lt_of_lt_of_le h (max_le_max hle (le_refl 1))

/-- A two-card deck matching the all/all filters. -/
def exTwoCardDeck : List Flashcard :=
  [ { id := "c1", question := "Q1", answer := "A1", difficulty := "easy"
      category := "concept", tags := [] }
  , { id := "c2", question := "Q2", answer := "A2", difficulty := "easy"
      category := "concept", tags := [] } ]

/-- C9 counterexample: on a 2-card filtered deck, mark-correct at index
0 schedules a deferred advance whose closure captured that render;
clicking Next inside the 500 ms window moves the index to 1, and when
the timer then fires its stale guard (0 < 1) still passes while the
functional updater increments the current index — the index reaches 2 =
totalCards, so the displayed card is undefined although the filtered
deck is non-empty. -/
theorem deferred_advance_exceeds_bound :
    filteredCards exTwoCardDeck
        (sessionRun exTwoCardDeck
          [.user .markCorrectEvent, .user .next, .fireTimeout]).current ≠ []
  ∧ (sessionRun exTwoCardDeck
        [.user .markCorrectEvent, .user .next, .fireTimeout]).current.currentIndex
      = totalCards exTwoCardDeck
          (sessionRun exTwoCardDeck
            [.user .markCorrectEvent, .user .next, .fireTimeout]).current
  ∧ currentCard exTwoCardDeck
        (sessionRun exTwoCardDeck
          [.user .markCorrectEvent, .user .next, .fireTimeout]).current = none := by
  refine ⟨?_, ?_, ?_⟩ <;> decide

/-- C9 (amended): over every sequence of user events from the initial
study state, provided each deferred advance scheduled by mark-correct
or mark-incorrect fires before the next user event, the current index
stays strictly below the filtered-deck size whenever that size is
positive (and is 0 otherwise), so the displayed card is defined
whenever the filtered deck is non-empty. -/
theorem study_session_serialized_index_in_bounds
    (deck : List Flashcard) (events : List StudyEvent) :
    (sessionRun deck (serializeStudy events)).current.currentIndex
        < max (totalCards deck (sessionRun deck (serializeStudy events)).current) 1
  ∧ (currentCard deck (sessionRun deck (serializeStudy events)).current ≠ none
      ∨ filteredCards deck (sessionRun deck (serializeStudy events)).current = []) := by
  have hinit : indexInBounds deck initialFlashcardState :=
    Nat.lt_of_lt_of_le Nat.zero_lt_one (le_max_right _ _)
  have hbound : indexInBounds deck (sessionRun deck (serializeStudy events)).current :=
    (serializedFold_bounds deck events initialFlashcardState hinit).2
  refine ⟨hbound, ?_⟩
  cases hfc : filteredCards deck (sessionRun deck (serializeStudy events)).current with
  | nil => exact Or.inr rfl
  | cons a l =>
      left
      have hlen : totalCards deck (sessionRun deck (serializeStudy events)).current
          = l.length + 1 := by
        unfold totalCards
        rw [hfc]
        rfl
      have hlt : (sessionRun deck (serializeStudy events)).current.currentIndex
          < totalCards deck (sessionRun deck (serializeStudy events)).current := by
        have h1 : (1 : ℕ) ≤ totalCards deck (sessionRun deck (serializeStudy events)).current := by
          omega
        have h2 := hbound
        unfold indexInBounds at h2
        rw [max_eq_left h1] at h2
        exact h2
      intro hnone
      rw [currentCard, List.get?_eq_none] at hnone
      have : totalCards deck (sessionRun deck (serializeStudy events)).current
          ≤ (sessionRun deck (serializeStudy events)).current.currentIndex := by
        unfold totalCards
        exact hnone
      omega

/-! ## C2: invariants of graphs the Knowledge-Tree stage accepts -/

theorem reachStep_sound (g : KnowledgeGraph) (r : String) :
    ∀ (l : List GEdge), (∀ e ∈ l, e ∈ g.edges) →
    ∀ (s : List String), (∀ x ∈ s, Relation.ReflTransGen (edgeRel g) r x) →
    ∀ x ∈ reachStep l s, Relation.ReflTransGen (edgeRel g) r x := by
  intro l
  induction l with
  | nil => intro _ s hs x hx; exact hs x hx
  | cons e rest ih =>
      intro hl s hs x hx
      have hrest : ∀ e2 ∈ rest, e2 ∈ g.edges := fun e2 he2 => hl e2 (List.mem_cons_of_mem e he2)
      have hstep : ∀ y ∈ (if s.contains e.source && !s.contains e.target
            then s ++ [e.target] else s),
          Relation.ReflTransGen (edgeRel g) r y := by
        intro y hy
        split at hy
        · case isTrue hcond =>
            rw [Bool.and_eq_true] at hcond
            rcases List.mem_append.mp hy with hmem | hmem
            · exact hs y hmem
            · have hysrc : (s.contains e.source) = true := hcond.1
              have hsrc : e.source ∈ s := by
                simpa using hysrc
              have hrel : edgeRel g e.source e.target :=
                ⟨e, hl e (List.mem_cons_self e rest), rfl, rfl⟩
              have hy2 : y = e.target := by simpa using hmem
              rw [hy2]
              exact Relation.ReflTransGen.tail (hs e.source hsrc) hrel
        · exact hs y hy
      exact ih hrest _ hstep x hx

theorem reachSet_sound (g : KnowledgeGraph) (r : String) :
    ∀ (fuel : Nat) (s : List String), (∀ x ∈ s, Relation.ReflTransGen (edgeRel g) r x) →
    ∀ x ∈ reachSet g.edges fuel s, Relation.ReflTransGen (edgeRel g) r x := by
  intro fuel
  induction fuel with
  | zero => intro s hs x hx; exact hs x hx
  | succ n ih =>
      intro s hs x hx
      exact ih _ (reachStep_sound g r g.edges (fun _ he => he) s hs) x hx

theorem edgeEndpointsValid_closed (g : KnowledgeGraph)
    (h : edgeEndpointsValid g = true) : EdgesClosed g := by
  intro e he
  have hpair := List.all_eq_true.mp h e he
  rw [Bool.and_eq_true] at hpair
  constructor
  · simpa using hpair.1
  · simpa using hpair.2

theorem connectedFromRoot_reachable (g : KnowledgeGraph)
    (h : connectedFromRoot g = true) : AllReachable g := by
  intro n hn hvar
  unfold connectedFromRoot at h
  cases hroot : rootNodes g with
  | nil => rw [hroot] at h; simp at h
  | cons r rest =>
      cases rest with
      | cons r2 rest2 => rw [hroot] at h; simp at h
      | nil =>
          rw [hroot] at h
          have hall := List.all_eq_true.mp h n hn
          have hne : (n.variant == "root") = false := beq_eq_false_iff_ne.mpr hvar
          rw [hne, Bool.false_or] at hall
          have hmem : n.id ∈ reachSet g.edges g.nodes.length [r.id] := by
            simpa using hall
          refine ⟨r, List.mem_cons_self r [], ?_⟩
          refine reachSet_sound g r.id g.nodes.length [r.id] ?_ n.id hmem
          intro x hx
          have : x = r.id := by simpa using hx
          rw [this]

theorem levelsMonotone_edge (g : KnowledgeGraph) (h : levelsMonotone g = true) :
    ∀ a b, edgeRel g a b → levelOf g a ≤ levelOf g b := by
  rintro a b ⟨e, he, hsrc, htgt⟩
  have := List.all_eq_true.mp h e he
  rw [← hsrc, ← htgt]
  exact of_decide_eq_true this

theorem levelsMonotone_paths (g : KnowledgeGraph) (h : levelsMonotone g = true) :
    PathsMonotone g := by
  intro p hp
  rw [List.chain'_map]
  exact hp.imp (levelsMonotone_edge g h)

/-- C2: every graph the Knowledge-Tree stage returns is the parsed
input unchanged (no invented edges) and satisfies the invariants —
every edge endpoint is an existing node id, exactly one root-variant
node exists, every non-root node is reachable from the root via edges,
and hierarchy levels are non-decreasing along every edge path (hence
along every root-to-leaf path); and on upstream output failing the
validation, the stage fails instead of repairing it. -/
theorem knowledgeTreeStage_invariants (parsed : KnowledgeGraph) :
    (∀ g, knowledgeTreeStage parsed = .ok g →
        g = parsed ∧ EdgesClosed g ∧ UniqueRoot g ∧ AllReachable g ∧ PathsMonotone g)
  ∧ (graphValid parsed = false → knowledgeTreeStage parsed = .error .stageFailure) := by
  constructor
  · intro g hg
    unfold knowledgeTreeStage at hg
    split at hg
    · case isTrue hvalid =>
        injection hg with hg2
        subst hg2
        unfold graphValid at hvalid
        rw [Bool.and_eq_true, Bool.and_eq_true, Bool.and_eq_true] at hvalid
        have h1 := hvalid
        have h2 := h1.1
        have h3 := h2.1
        refine ⟨rfl, edgeEndpointsValid_closed _ h3.1, ?_, connectedFromRoot_reachable _ h2.2,
          levelsMonotone_paths _ h1.2⟩
        exact beq_iff_eq.mp h3.2
    · exact absurd hg (by simp)
  · intro hf
    unfold knowledgeTreeStage
    rw [if_neg (by rw [hf]; exact Bool.false_ne_true)]

/-- Witness for C2: the stage accepts the concrete three-node
hierarchy, which therefore satisfies all the invariants, and rejects
the concrete graph with a dangling edge. -/
theorem knowledgeTreeStage_invariants_witness :
    (exGraph = exGraph ∧ EdgesClosed exGraph ∧ UniqueRoot exGraph ∧ AllReachable exGraph
        ∧ PathsMonotone exGraph)
  ∧ knowledgeTreeStage exBadGraph = .error .stageFailure :=
  ⟨(knowledgeTreeStage_invariants exGraph).1 exGraph rfl,
   (knowledgeTreeStage_invariants exBadGraph).2 rfl⟩

end PathTree
